import Mathlib

/-!
Verification of the Review Lifecycle Store of the eval-tool repository:
a shallow embedding of the serverless request handlers that read and
mutate the `pending_reviews`, `completed_reviews` and `backup_reviews`
MongoDB collections, together with proofs of the lifecycle properties.

Documents are modelled as association lists of string keys to JSON-like
values; the three collections are lists of documents; each handler is a
state transformer (or, where MongoDB leaves the result under-determined,
a relation between the store state and the response).
-/

/-- A JSON-like field value as stored in a review document.  `date`
models a BSON datetime (the value of `new Date()`), as a tick count. -/
inductive Value where
  | str (s : String)
  | num (n : Int)
  | bool (b : Bool)
  | null
  | date (t : Nat)
deriving DecidableEq, Repr

/-- A review document: an ordered list of key/value fields, as in a JSON
object (lookups take the first occurrence of a key). -/
abbrev Doc := List (String × Value)

/-- Field lookup, `doc[k]` in JavaScript: the first field named `k`, or
`none` when the key is absent (JavaScript `undefined`). -/
def getField (d : Doc) (k : String) : Option Value :=
  (d.find? (fun p => p.1 == k)).map (·.2)

/-- The object `{...d, k: v}`: every field of `d` except `k`, and the
field `k` bound to `v`. -/
def setField (d : Doc) (k : String) (v : Value) : Doc :=
  d.filter (fun p => p.1 != k) ++ [(k, v)]

/-- JavaScript truthiness of a field value: `0`, `""`, `false` and
`null` are falsy, every other modelled value is truthy. -/
def Value.truthy : Value → Bool
  | .str s => s != ""
  | .num n => n != 0
  | .bool b => b
  | .null => false
  | .date _ => true

/-- Truthiness of an optional field: an absent field (JavaScript
`undefined`) is falsy. -/
def isTruthy (o : Option Value) : Bool :=
  match o with
  | none => false
  | some v => v.truthy

/-- The state of the `llm_reviews` database: the three collections the
lifecycle handlers touch. -/
structure DBState where
  pending : List Doc
  completed : List Doc
  backup : List Doc
deriving DecidableEq, Repr

/-- `deleteOne({id: v})` on a collection: removes the first document
whose `id` field equals `v`, and at most one document. -/
def deleteOneById (docs : List Doc) (v : Value) : List Doc :=
  match docs with
  | [] => []
  | d :: ds => if getField d "id" = some v then ds else d :: deleteOneById ds v

/-- The document inserted into `completed_reviews` by the Submit
handler: `{...reviewData, submitted_at: new Date()}` with `now` the
server clock at submission time. -/
def submittedDoc (reviewData : Doc) (now : Nat) : Doc :=
  setField reviewData "submitted_at" (.date now)

/-- Response of the Submit handler: `{success: true}` with status 200,
or a 500 `{error}` body when the awaited `Promise.all` rejected. -/
inductive SubmitResponse where
  | success
  | error
deriving DecidableEq, Repr

/-- The Submit handler (`api/submit-review.js`), on the happy path past
CORS/method checks.  `insertOk` and `deleteOk` are the outcomes of the
two database operations started by `Promise.all`: the insert into
`completed_reviews` takes effect iff `insertOk`; the `deleteOne` on
`pending_reviews` is started only when `reviewData.review_id` is truthy
and takes effect iff `deleteOk`.  Because both promises are started
together and `Promise.all` rejects as soon as either rejects, each
operation's effect is independent of the other's outcome, and the
handler responds `{success: true}` only when every started operation
succeeded; any rejection reaches the `catch` and yields the 500 error
response. -/
def submitHandler (reviewData : Doc) (now : Nat) (insertOk deleteOk : Bool)
    (st : DBState) : DBState × SubmitResponse :=
  let rid := getField reviewData "review_id"
  let hasId := isTruthy rid
  let completedAfter :=
    if insertOk then st.completed ++ [submittedDoc reviewData now] else st.completed
  let pendingAfter :=
    match rid with
    | some v => if v.truthy && deleteOk then deleteOneById st.pending v else st.pending
    | none => st.pending
  let ok := insertOk && (!hasId || deleteOk)
  ({ st with pending := pendingAfter, completed := completedAfter },
   if ok then .success else .error)

/-- No field named `k` survives filtering out the key `k`. -/
theorem find?_filter_self (d : Doc) (k : String) :
    (d.filter (fun p => p.1 != k)).find? (fun p => p.1 == k) = none := by
  induction d with
  | nil => rfl
  | cons p ds ih =>
    by_cases hp : p.1 = k <;>
      simp [List.filter_cons, hp, List.find?_cons, ih]

/-- Filtering out the key `k` does not change the lookup of a different
key `k'`. -/
theorem find?_filter_other (d : Doc) (k k' : String) (h : k' ≠ k) :
    (d.filter (fun p => p.1 != k)).find? (fun p => p.1 == k') =
      d.find? (fun p => p.1 == k') := by
  induction d with
  | nil => rfl
  | cons p ds ih =>
    by_cases hp : p.1 = k
    · have hne : p.1 ≠ k' := fun hc => h (by rw [← hc, hp])
      simp [List.filter_cons, hp, List.find?_cons, hne, ih,
        beq_eq_false_iff_ne.mpr (fun hc : k = k' => h hc.symm)]
    · by_cases hq : p.1 = k'
      · simp [List.filter_cons, hp, List.find?_cons, hq, h]
      · simp [List.filter_cons, hp, List.find?_cons, hq, h, ih]

/-- Field lookup after `{...d, k: v}`: the overridden key reads the new
value, every other key reads as in `d`. -/
theorem getField_setField (d : Doc) (k k' : String) (v : Value) :
    getField (setField d k v) k' = if k' = k then some v else getField d k' := by
  unfold getField setField
  rw [List.find?_append]
  by_cases h : k' = k
  · subst h
    rw [find?_filter_self]
    simp [List.find?_cons]
  · rw [find?_filter_other d k k' h]
    have hkk : (k == k') = false :=
      beq_eq_false_iff_ne.mpr (fun hc : k = k' => h hc.symm)
    have : ([(k, v)].find? (fun p => p.1 == k')) = none := by
      simp [List.find?_cons, hkk]
    rw [this]
    simp [h]

/-- Response of the Fetch-All handler: either the structured
`{error: "No reviews available"}` no-data payload (status 200), or
`{reviews, total}`. -/
inductive FetchAllResponse where
  | noReviews
  | ok (reviews : List Doc) (total : Nat)
deriving DecidableEq, Repr

/-- The Fetch-All handler (`get-all-reviews`): reads the whole
`pending_reviews` collection with `find({}).toArray()` (no filter, no
limit) and returns it, or the structured no-data payload when the
collection is empty. -/
def fetchAllHandler (st : DBState) : FetchAllResponse :=
  let reviews := st.pending
  if reviews.isEmpty then .noReviews
  else .ok reviews reviews.length

/-- The sequence of documents carried by a Fetch-All response; the
structured no-data payload carries the empty sequence. -/
def fetchAllReviews : FetchAllResponse → List Doc
  | .noReviews => []
  | .ok reviews _ => reviews

/-- Response of the Reset handler: 404 `{error: "No backup found..."}`
or `{success: true, count}`. -/
inductive ResetResponse where
  | noBackup
  | success (count : Nat)
deriving DecidableEq, Repr

/-- The Reset handler (`api/reset` in `config.js`), on the POST path:
reads all of `backup_reviews`; if empty, answers 404 without touching
anything; otherwise runs `deleteMany({})` on `pending_reviews` followed
by `insertMany(backups)`, leaving Pending exactly equal to the backup. -/
def resetHandler (st : DBState) : DBState × ResetResponse :=
  if st.backup.isEmpty then (st, .noBackup)
  else ({ st with pending := st.backup }, .success st.backup.length)

/-- The module-level connection cache of each handler file: the
`cachedClient` and `cachedDb` globals.  Handles are modelled as
numbers. -/
structure ConnCache where
  cachedClient : Option Nat
  cachedDb : Option Nat
deriving DecidableEq, Repr

/-- The `connectToDatabase` function shared by the handler files: if
both `cachedClient` and `cachedDb` are set (JavaScript objects are
truthy, `null` is falsy), return the cached database handle unchanged;
otherwise perform a fresh (successful) connect — producing the handles
`freshClient` and `freshDb` — cache both, and return the new database
handle. -/
def connectToDatabase (freshClient freshDb : Nat) (c : ConnCache) :
    Nat × ConnCache :=
  match c.cachedClient, c.cachedDb with
  | some _, some db => (db, c)
  | _, _ =>
    (freshDb, { cachedClient := some freshClient, cachedDb := some freshDb })

/-- A MongoDB projection document: a list of field names each mapped to
`true` (`1`, include) or `false` (`0`, exclude). -/
abbrev Projection := List (String × Bool)

/-- A projection is valid when, apart from `_id`, it does not mix
inclusion and exclusion — MongoDB rejects mixed projections. -/
def projectionValid (proj : Projection) : Bool :=
  let nonId := proj.filter (fun p => p.1 != "_id")
  nonId.all (·.2) || nonId.all (fun p => !p.2)

/-- The field names a projection includes. -/
def includedFields (proj : Projection) : List String :=
  (proj.filter (·.2)).map (·.1)

/-- Apply an inclusion projection: keep exactly the listed fields. -/
def applyInclusionProjection (fields : List String) (d : Doc) : Doc :=
  d.filter (fun p => fields.contains p.1)

/-- `find(filter, {projection}).toArray()` applied to already-fetched
documents: an inclusion projection keeps the listed fields (plus `_id`
unless excluded), an exclusion projection drops the listed fields, and
a mixed projection makes the query fail with the MongoDB server
error. -/
def findProjected (docs : List Doc) (proj : Projection) :
    Except String (List Doc) :=
  if projectionValid proj then
    if (proj.filter (fun p => p.1 != "_id")).all (·.2) then
      .ok (docs.map (applyInclusionProjection
        (includedFields proj ++
          (if proj.contains ("_id", false) then [] else ["_id"]))))
    else
      .ok (docs.map (fun d => d.filter (fun p => !(proj.contains (p.1, false)))))
  else
    .error "Cannot do exclusion on field response in inclusion projection"

/-- The projection of the inclusion-only summary variant of
List-Completed: every needed field listed with `1`, the large
`response` field excluded by not being listed. -/
def summaryProjV1 : Projection :=
  [("_id", true), ("review_id", true), ("prompt", true),
   ("acceptable", true), ("reviewer", true), ("notes", true),
   ("timestamp", true), ("submitted_at", true),
   ("organization_name", true), ("agency_user", true), ("user_id", true)]

/-- The projection of the mixed summary variant of List-Completed:
inclusion fields together with `response: 0`. -/
def summaryProjV2 : Projection :=
  [("review_id", true), ("prompt", true), ("acceptable", true),
   ("reviewer", true), ("notes", true), ("timestamp", true),
   ("submitted_at", true), ("organization_name", true),
   ("response", false)]

/-- Ordering key used by `sort({submitted_at: -1})`: a document's
`submitted_at` field, with a missing field sorting as `null`. -/
def sortTs (d : Doc) : Value :=
  (getField d "submitted_at").getD .null

/-- Rank of a value's type in the (simplified) BSON cross-type sort
order used to compare `submitted_at` keys. -/
def Value.typeRank : Value → Nat
  | .null => 0
  | .num _ => 1
  | .str _ => 2
  | .bool _ => 3
  | .date _ => 4

/-- Total comparison of two sort keys, BSON-style: by type rank first,
then by the natural order within the type. -/
def Value.le (a b : Value) : Bool :=
  if a.typeRank ≠ b.typeRank then a.typeRank ≤ b.typeRank
  else
    match a, b with
    | .num x, .num y => x ≤ y
    | .str x, .str y => decide (x ≤ y)
    | .bool x, .bool y => !x || y
    | .date x, .date y => x ≤ y
    | _, _ => true

/-- A list of documents is sorted as `sort({submitted_at: -1})` demands:
each later document's key is less than or equal to each earlier one's. -/
abbrev SortedDescBySubmittedAt (l : List Doc) : Prop :=
  l.Pairwise (fun a b => Value.le (sortTs b) (sortTs a) = true)

/-- The result of a MongoDB `sort({submitted_at: -1})` on a collection:
some permutation of the input that is descending on the key.  MongoDB
specifies nothing further — in particular no tie-break between equal
keys — so the result is a relation, not a function. -/
def MongoSortedDesc (input out : List Doc) : Prop :=
  input.Perm out ∧ SortedDescBySubmittedAt out

/-- Response of the List-Completed handlers: the structured
`{error: "No reviews yet"}` payload, `{reviews}`, or a 500 `{error}`
body when the query itself failed. -/
inductive ListCompletedResponse where
  | noReviews
  | ok (reviews : List Doc)
  | error (msg : String)
deriving DecidableEq, Repr

/-- Wrap a fetched document list the way every List-Completed variant
does: empty array becomes the structured no-data payload. -/
def wrapListResp (docs : List Doc) : ListCompletedResponse :=
  if docs.isEmpty then .noReviews else .ok docs

/-- The deterministic tail of a List-Completed handler, applied to the
already-sorted collection: `limit(100)`, then the variant's projection
(`none` for the detail variant, which fetches full documents), then the
response wrapping; a projection the server rejects surfaces as the 500
error response through the handler's `catch`. -/
def listCompletedResp (proj : Option Projection) (sortedDocs : List Doc) :
    ListCompletedResponse :=
  match proj with
  | none => wrapListResp (sortedDocs.take 100)
  | some p =>
    match findProjected (sortedDocs.take 100) p with
    | .ok out => wrapListResp out
    | .error m => .error m

/-- Full behaviour of a List-Completed variant as a relation between
the `completed_reviews` collection and the response: the collection is
sorted by `submitted_at` descending (any order the database may choose
between equal keys), then limited, projected and wrapped. -/
def ListCompletedHandler (completed : List Doc) (proj : Option Projection)
    (resp : ListCompletedResponse) : Prop :=
  ∃ sorted, MongoSortedDesc completed sorted ∧
    resp = listCompletedResp proj sorted

/-- The documents carried by a List-Completed response. -/
def respDocs : ListCompletedResponse → List Doc
  | .ok reviews => reviews
  | _ => []

/-- After `deleteOne({id: v})` on a collection whose `id` fields are
pairwise distinct, no document with that id remains. -/
theorem deleteOneById_not_mem (l : List Doc) (v : Value)
    (hnodup : (l.map (fun d => getField d "id")).Nodup) :
    ∀ d ∈ deleteOneById l v, getField d "id" ≠ some v := by
  induction l with
  | nil => intro d hd; cases hd
  | cons a as ih =>
    rw [List.map_cons, List.nodup_cons] at hnodup
    obtain ⟨hna, hnd⟩ := hnodup
    by_cases ha : getField a "id" = some v
    · rw [deleteOneById, if_pos ha]
      intro d hd hc
      exact hna (ha ▸ hc ▸ List.mem_map_of_mem (fun d => getField d "id") hd)
    · rw [deleteOneById, if_neg ha]
      intro d hd
      rcases List.mem_cons.mp hd with rfl | hd'
      · exact ha
      · exact ih hnd d hd'

/-- `deleteOne({id: v})` removes exactly one document when a matching
document is present. -/
theorem deleteOneById_length (l : List Doc) (v : Value)
    (hmem : ∃ d ∈ l, getField d "id" = some v) :
    (deleteOneById l v).length + 1 = l.length := by
  induction l with
  | nil => obtain ⟨d, hd, _⟩ := hmem; cases hd
  | cons a as ih =>
    by_cases ha : getField a "id" = some v
    · rw [deleteOneById, if_pos ha]
      rfl
    · obtain ⟨d, hd, hid⟩ := hmem
      rcases List.mem_cons.mp hd with rfl | hd'
      · exact absurd hid ha
      · rw [deleteOneById, if_neg ha]
        simpa [List.length_cons] using ih ⟨d, hd', hid⟩

/-- An inclusion projection yields no field whose name is not listed. -/
theorem find?_inclusion_not_listed (fields : List String) (d : Doc)
    (k : String) (h : fields.contains k = false) :
    ((applyInclusionProjection fields d).find? (fun p => p.1 == k)) = none := by
  induction d with
  | nil => rfl
  | cons p ds ih =>
    show (((p :: ds).filter (fun p => fields.contains p.1)).find?
      (fun p => p.1 == k)) = none
    rw [List.filter_cons]
    by_cases hp : fields.contains p.1
    · have hne : p.1 ≠ k := by
        intro hc; rw [hc, h] at hp; cases hp
      rw [if_pos (by simpa using hp),
        List.find?_cons_of_neg _ (by simpa using hne)]
      exact ih
    · rw [if_neg (by simpa using hp)]
      exact ih

/-- Documents carried by a wrapped List-Completed response all come
from the wrapped array. -/
theorem mem_respDocs_wrap (l : List Doc) (d : Doc)
    (hd : d ∈ respDocs (wrapListResp l)) : d ∈ l := by
  by_cases h : l.isEmpty
  · rw [wrapListResp, if_pos h] at hd
    cases hd
  · rwa [wrapListResp, if_neg h] at hd

/-- C3: for every Pending state with pairwise-distinct ids, Fetch-All
answers with a sequence of the same length as Pending whose id multiset
covers exactly the ids of Pending — no item dropped, none duplicated
(the structured no-data payload carries the empty sequence, matching an
empty Pending). -/
theorem fetchAll_returns_whole_pending (st : DBState)
    (h : (st.pending.map (fun d => getField d "id")).Nodup) :
    (fetchAllReviews (fetchAllHandler st)).length = st.pending.length ∧
    (∀ v, v ∈ (fetchAllReviews (fetchAllHandler st)).map (fun d => getField d "id") ↔
      v ∈ st.pending.map (fun d => getField d "id")) ∧
    ((fetchAllReviews (fetchAllHandler st)).map (fun d => getField d "id")).Nodup := by
  have key : fetchAllReviews (fetchAllHandler st) = st.pending := by
    cases hp : st.pending with
    | nil => simp [fetchAllHandler, fetchAllReviews, hp]
    | cons d ds => simp [fetchAllHandler, fetchAllReviews, hp]
  rw [key]
  exact ⟨rfl, fun v => Iff.rfl, h⟩

/-- Witness for C3 at a two-item Pending store. -/
theorem fetchAll_returns_whole_pending_witness :
    ((([[("id", Value.str "a1")], [("id", Value.str "a2")]].map
        (fun d => getField d "id")).Nodup) ∧
      (fetchAllReviews (fetchAllHandler
        ⟨[[("id", Value.str "a1")], [("id", Value.str "a2")]], [], []⟩)).length =
        ([[("id", Value.str "a1")], [("id", Value.str "a2")]] : List Doc).length) := by
  refine ⟨by decide, ?_⟩
  exact (fetchAll_returns_whole_pending
    ⟨[[("id", Value.str "a1")], [("id", Value.str "a2")]], [], []⟩ (by decide)).1

/-- C6: when the Backup collection is empty (or absent, which reads as
empty), Reset answers the 404 no-backup error and leaves the whole
database state — in particular Pending — exactly as it was. -/
theorem reset_no_backup_leaves_state (st : DBState) (h : st.backup = []) :
    resetHandler st = (st, .noBackup) := by
  simp [resetHandler, h]

/-- Witness for C6 at a state with one pending item and no backup. -/
theorem reset_no_backup_leaves_state_witness :
    (DBState.backup ⟨[[("id", Value.str "a1")]], [], []⟩ = []) ∧
      resetHandler ⟨[[("id", Value.str "a1")]], [], []⟩ =
        (⟨[[("id", Value.str "a1")]], [], []⟩, .noBackup) :=
  ⟨rfl, reset_no_backup_leaves_state _ rfl⟩

/-- C7: when the Backup collection is non-empty, Reset succeeds and
leaves Pending containing exactly the backup's documents, whatever
Pending held before. -/
theorem reset_restores_backup (st : DBState) (h : st.backup ≠ []) :
    (resetHandler st).1.pending = st.backup ∧
    (resetHandler st).2 = .success st.backup.length := by
  have hne : st.backup.isEmpty = false := by
    simpa [List.isEmpty_iff] using h
  simp [resetHandler, hne]

/-- Witness for C7: a one-document backup replaces a two-document
Pending store. -/
theorem reset_restores_backup_witness :
    (resetHandler ⟨[[("id", Value.str "x")], [("id", Value.str "y")]], [],
        [[("id", Value.str "b1")]]⟩).1.pending = [[("id", Value.str "b1")]] ∧
    (resetHandler ⟨[[("id", Value.str "x")], [("id", Value.str "y")]], [],
        [[("id", Value.str "b1")]]⟩).2 = .success 1 :=
  reset_restores_backup
    ⟨[[("id", Value.str "x")], [("id", Value.str "y")]], [],
      [[("id", Value.str "b1")]]⟩ (by decide)

/-- C8: a Submit whose verdict document carries no `review_id` field
inserts exactly one document into Completed, leaves Pending untouched,
and acknowledges success (no delete is even started). -/
theorem submit_no_review_id_frame (reviewData : Doc) (now : Nat)
    (deleteOk : Bool) (st : DBState)
    (h : getField reviewData "review_id" = none) :
    (submitHandler reviewData now true deleteOk st).1.pending = st.pending ∧
    (submitHandler reviewData now true deleteOk st).1.completed =
      st.completed ++ [submittedDoc reviewData now] ∧
    (submitHandler reviewData now true deleteOk st).2 = .success := by
  simp [submitHandler, h, isTruthy]

/-- Witness for C8 at a verdict without `review_id` against a one-item
Pending store. -/
theorem submit_no_review_id_frame_witness :
    (submitHandler [("acceptable", Value.bool true)] 5 true false
        ⟨[[("id", Value.str "a1")]], [], []⟩).1.pending =
      [[("id", Value.str "a1")]] ∧
    (submitHandler [("acceptable", Value.bool true)] 5 true false
        ⟨[[("id", Value.str "a1")]], [], []⟩).1.completed =
      [] ++ [submittedDoc [("acceptable", Value.bool true)] 5] ∧
    (submitHandler [("acceptable", Value.bool true)] 5 true false
        ⟨[[("id", Value.str "a1")]], [], []⟩).2 = .success :=
  submit_no_review_id_frame [("acceptable", Value.bool true)] 5 false
    ⟨[[("id", Value.str "a1")]], [], []⟩ (by decide)

/-- C9: within one execution context, every `connectToDatabase` call
after the first successful one returns the very same database handle
and leaves the cache unchanged, whatever handles a fresh handshake
would have produced. -/
theorem connectToDatabase_idempotent (c : ConnCache)
    (f1c f1d f2c f2d : Nat) :
    connectToDatabase f2c f2d (connectToDatabase f1c f1d c).2 =
      ((connectToDatabase f1c f1d c).1, (connectToDatabase f1c f1d c).2) := by
  cases hc : c.cachedClient <;> cases hd : c.cachedDb <;>
    simp [connectToDatabase, hc, hd]

/-- C10: the stored completed document's `submitted_at` field always
equals the server-generated timestamp — a client-supplied
`submitted_at` is overwritten by the object spread and can never reach
the stored record; and the document the Submit handler appends to
Completed is exactly that merged document. -/
theorem submitted_at_always_server_timestamp (reviewData : Doc) (now : Nat)
    (deleteOk : Bool) (st : DBState) :
    getField (submittedDoc reviewData now) "submitted_at" =
      some (.date now) ∧
    (submitHandler reviewData now true deleteOk st).1.completed =
      st.completed ++ [submittedDoc reviewData now] := by
  refine ⟨?_, by simp [submitHandler]⟩
  rw [submittedDoc, getField_setField]
  simp

/-- C1 counterexample: a Submit whose insert into Completed succeeds
but whose started delete from Pending fails answers the 500 error
response, not success — the delete failure is surfaced as an overall
failure (while the inserted completed document stays in place). -/
theorem submit_delete_failure_surfaced_cex :
    (submitHandler [("review_id", Value.str "a1")] 0 true false
        ⟨[[("id", Value.str "a1")]], [], []⟩).2 = SubmitResponse.error ∧
    (submitHandler [("review_id", Value.str "a1")] 0 true false
        ⟨[[("id", Value.str "a1")]], [], []⟩).1.completed =
      [] ++ [submittedDoc [("review_id", Value.str "a1")] 0] ∧
    (submitHandler [("review_id", Value.str "a1")] 0 true false
        ⟨[[("id", Value.str "a1")]], [], []⟩).1.pending =
      [[("id", Value.str "a1")]] := by
  refine ⟨rfl, rfl, rfl⟩

/-- C1 amended: Submit acknowledges success exactly when the insert
into Completed succeeded and, in case a truthy `review_id` started a
delete from Pending, that delete succeeded too — a delete failure is
surfaced as an overall 500 failure through the rejected `Promise.all`,
although the successful insert's effect is kept (never rolled back). -/
theorem submit_success_iff_all_started_ops_ok (reviewData : Doc)
    (now : Nat) (insertOk deleteOk : Bool) (st : DBState) :
    ((submitHandler reviewData now insertOk deleteOk st).2 =
        SubmitResponse.success ↔
      (insertOk &&
        (!(isTruthy (getField reviewData "review_id")) || deleteOk)) = true) ∧
    (submitHandler reviewData now insertOk deleteOk st).1.completed =
      (if insertOk then st.completed ++ [submittedDoc reviewData now]
       else st.completed) := by
  constructor
  · cases hok : (insertOk &&
      (!(isTruthy (getField reviewData "review_id")) || deleteOk)) <;>
      simp [submitHandler, hok]
  · simp [submitHandler]

/-- C2 counterexample: the delete from Pending is gated on JavaScript
truthiness of `review_id`, so submitting a verdict whose `review_id` is
the falsy value `0` — matching a pending item whose `id` is `0` —
acknowledges success yet never starts the delete: Pending still
contains the matching document afterwards. -/
theorem submit_falsy_id_skips_delete_cex :
    getField [("review_id", Value.num 0), ("acceptable", Value.bool true)]
        "review_id" = some (Value.num 0) ∧
    getField [("id", Value.num 0), ("prompt", Value.str "p")] "id" =
      some (Value.num 0) ∧
    (submitHandler [("review_id", Value.num 0), ("acceptable", Value.bool true)]
        7 true true
        ⟨[[("id", Value.num 0), ("prompt", Value.str "p")]], [], []⟩).2 =
      SubmitResponse.success ∧
    (submitHandler [("review_id", Value.num 0), ("acceptable", Value.bool true)]
        7 true true
        ⟨[[("id", Value.num 0), ("prompt", Value.str "p")]], [], []⟩).1.pending =
      [[("id", Value.num 0), ("prompt", Value.str "p")]] := by
  refine ⟨rfl, rfl, rfl, rfl⟩

/-- C2 amended: for a verdict whose `review_id` is truthy and equals
the id of a pending item — under the pending-id uniqueness invariant —
a Submit whose two operations succeed acknowledges success, appends to
Completed exactly one document holding every submitted field (with
`submitted_at` overridden to the server timestamp), and leaves Pending
with no document of that id and with exactly one document fewer. -/
theorem submit_truthy_id_moves_item (reviewData : Doc) (rid : Value)
    (now : Nat) (st : DBState)
    (hrid : getField reviewData "review_id" = some rid)
    (htruthy : rid.truthy = true)
    (hnodup : (st.pending.map (fun d => getField d "id")).Nodup)
    (hmem : ∃ d ∈ st.pending, getField d "id" = some rid) :
    (submitHandler reviewData now true true st).2 = SubmitResponse.success ∧
    (submitHandler reviewData now true true st).1.completed =
      st.completed ++ [submittedDoc reviewData now] ∧
    getField (submittedDoc reviewData now) "submitted_at" =
      some (.date now) ∧
    (∀ k, k ≠ "submitted_at" →
      getField (submittedDoc reviewData now) k = getField reviewData k) ∧
    (∀ d ∈ (submitHandler reviewData now true true st).1.pending,
      getField d "id" ≠ some rid) ∧
    (submitHandler reviewData now true true st).1.pending.length + 1 =
      st.pending.length := by
  have hpend : (submitHandler reviewData now true true st).1.pending =
      deleteOneById st.pending rid := by
    simp [submitHandler, hrid, isTruthy, htruthy]
  refine ⟨?_, by simp [submitHandler], ?_, ?_, ?_, ?_⟩
  · simp [submitHandler, hrid, isTruthy, htruthy]
  · rw [submittedDoc, getField_setField]; simp
  · intro k hk
    rw [submittedDoc, getField_setField, if_neg hk]
  · rw [hpend]
    exact deleteOneById_not_mem st.pending rid hnodup
  · rw [hpend]
    exact deleteOneById_length st.pending rid hmem

/-- Witness for the amended C2 at a one-item Pending store and a
truthy string `review_id`. -/
theorem submit_truthy_id_moves_item_witness :
    (submitHandler [("review_id", Value.str "a1"), ("acceptable", Value.bool true)]
        5 true true
        ⟨[[("id", Value.str "a1"), ("prompt", Value.str "p")]], [], []⟩).2 =
      SubmitResponse.success ∧
    (submitHandler [("review_id", Value.str "a1"), ("acceptable", Value.bool true)]
        5 true true
        ⟨[[("id", Value.str "a1"), ("prompt", Value.str "p")]], [], []⟩).1.pending.length + 1 =
      1 ∧
    getField (submittedDoc
        [("review_id", Value.str "a1"), ("acceptable", Value.bool true)] 5)
      "submitted_at" = some (.date 5) := by
  have h := submit_truthy_id_moves_item
    [("review_id", Value.str "a1"), ("acceptable", Value.bool true)]
    (Value.str "a1") 5
    ⟨[[("id", Value.str "a1"), ("prompt", Value.str "p")]], [], []⟩
    (by decide) (by decide) (by decide) (by decide)
  exact ⟨h.1, h.2.2.2.2.2, h.2.2.1⟩

/-- C4: documents answered by the inclusion-only summary variant of
List-Completed never carry the `response` field; the mixed summary
variant's projection is rejected by MongoDB, so it answers the error
response and carries no documents at all (in particular none with
`response`); and the detail variant answers stored documents verbatim,
so a stored `response` field is included. -/
theorem summary_excludes_response_detail_verbatim (completed : List Doc)
    (r1 r2 r3 : ListCompletedResponse)
    (h1 : ListCompletedHandler completed (some summaryProjV1) r1)
    (h2 : ListCompletedHandler completed (some summaryProjV2) r2)
    (h3 : ListCompletedHandler completed none r3) :
    (∀ d ∈ respDocs r1, getField d "response" = none) ∧
    (∀ d ∈ respDocs r2, getField d "response" = none) ∧
    (∀ d ∈ respDocs r3, d ∈ completed) := by
  obtain ⟨s1, hs1, rfl⟩ := h1
  obtain ⟨s2, hs2, rfl⟩ := h2
  obtain ⟨s3, hs3, rfl⟩ := h3
  refine ⟨?_, ?_, ?_⟩
  · intro d hd
    have hred : listCompletedResp (some summaryProjV1) s1 =
        wrapListResp ((s1.take 100).map (applyInclusionProjection
          (includedFields summaryProjV1 ++ ["_id"]))) := rfl
    rw [hred] at hd
    obtain ⟨d0, hd0, rfl⟩ := List.mem_map.mp (mem_respDocs_wrap _ _ hd)
    show ((applyInclusionProjection
        (includedFields summaryProjV1 ++ ["_id"]) d0).find?
      (fun p => p.1 == "response")).map (·.2) = none
    rw [find?_inclusion_not_listed
      (includedFields summaryProjV1 ++ ["_id"]) d0 "response" (by decide)]
    rfl
  · intro d hd
    have hred : listCompletedResp (some summaryProjV2) s2 =
        .error "Cannot do exclusion on field response in inclusion projection" :=
      rfl
    rw [hred] at hd
    simp [respDocs] at hd
  · intro d hd
    have hd' : d ∈ s3.take 100 := mem_respDocs_wrap _ _ hd
    exact hs3.1.mem_iff.mpr (List.mem_of_mem_take hd')

/-- Witness for C4: a stored document whose `response` field survives
the detail variant but is stripped by the summary projection. -/
theorem summary_excludes_response_detail_verbatim_witness :
    getField (applyInclusionProjection
        (includedFields summaryProjV1 ++ ["_id"])
        [("response", Value.str "big"), ("submitted_at", Value.date 3)])
      "response" = none ∧
    ([("response", Value.str "big"), ("submitted_at", Value.date 3)] : Doc) ∈
      [[("response", Value.str "big"), ("submitted_at", Value.date 3)]] := by
  have h := summary_excludes_response_detail_verbatim
    [[("response", Value.str "big"), ("submitted_at", Value.date 3)]]
    (listCompletedResp (some summaryProjV1)
      [[("response", Value.str "big"), ("submitted_at", Value.date 3)]])
    (listCompletedResp (some summaryProjV2)
      [[("response", Value.str "big"), ("submitted_at", Value.date 3)]])
    (listCompletedResp none
      [[("response", Value.str "big"), ("submitted_at", Value.date 3)]])
    ⟨_, ⟨List.Perm.refl _, by decide⟩, rfl⟩
    ⟨_, ⟨List.Perm.refl _, by decide⟩, rfl⟩
    ⟨_, ⟨List.Perm.refl _, by decide⟩, rfl⟩
  exact ⟨h.1 _ (by decide), h.2.2 _ (by decide)⟩

/-- C5 counterexample: on a Completed collection holding two documents
with equal `submitted_at`, both relative orders are valid List-Completed
results — the handler sorts on `submitted_at` alone, with no secondary
key, so the returned order between equal timestamps is not
deterministic. -/
theorem listCompleted_tiebreak_nondeterministic_cex :
    ListCompletedHandler
      [[("review_id", Value.str "a"), ("submitted_at", Value.date 3)],
       [("review_id", Value.str "b"), ("submitted_at", Value.date 3)]]
      none
      (.ok [[("review_id", Value.str "a"), ("submitted_at", Value.date 3)],
            [("review_id", Value.str "b"), ("submitted_at", Value.date 3)]]) ∧
    ListCompletedHandler
      [[("review_id", Value.str "a"), ("submitted_at", Value.date 3)],
       [("review_id", Value.str "b"), ("submitted_at", Value.date 3)]]
      none
      (.ok [[("review_id", Value.str "b"), ("submitted_at", Value.date 3)],
            [("review_id", Value.str "a"), ("submitted_at", Value.date 3)]]) ∧
    ListCompletedResponse.ok
        [[("review_id", Value.str "a"), ("submitted_at", Value.date 3)],
         [("review_id", Value.str "b"), ("submitted_at", Value.date 3)]] ≠
      ListCompletedResponse.ok
        [[("review_id", Value.str "b"), ("submitted_at", Value.date 3)],
         [("review_id", Value.str "a"), ("submitted_at", Value.date 3)]] := by
  refine ⟨⟨_, ⟨List.Perm.refl _, by decide⟩, rfl⟩,
    ⟨[[("review_id", Value.str "b"), ("submitted_at", Value.date 3)],
      [("review_id", Value.str "a"), ("submitted_at", Value.date 3)]],
      ⟨List.Perm.swap
        [("review_id", Value.str "b"), ("submitted_at", Value.date 3)]
        [("review_id", Value.str "a"), ("submitted_at", Value.date 3)] [],
       by decide⟩, rfl⟩,
    by decide⟩

/-- C5 amended: every sequence the (detail) List-Completed handler can
answer is ordered by `submitted_at` descending; no tie-break between
equal timestamps is enforced, so beyond this ordering the result is not
unique. -/
theorem listCompleted_sorted_desc (completed : List Doc)
    (resp : ListCompletedResponse)
    (h : ListCompletedHandler completed none resp) :
    SortedDescBySubmittedAt (respDocs resp) := by
  obtain ⟨sorted, ⟨hperm, hsort⟩, rfl⟩ := h
  have htake : SortedDescBySubmittedAt (sorted.take 100) :=
    List.Pairwise.sublist (List.take_sublist _ _) hsort
  have hred : listCompletedResp none sorted =
      wrapListResp (sorted.take 100) := rfl
  rw [hred]
  by_cases he : (sorted.take 100).isEmpty
  · rw [wrapListResp, if_pos he]
    exact List.Pairwise.nil
  · rw [wrapListResp, if_neg he]
    exact htake

/-- Witness for the amended C5: a two-timestamp store answered in
descending order. -/
theorem listCompleted_sorted_desc_witness :
    SortedDescBySubmittedAt (respDocs (ListCompletedResponse.ok
      [[("submitted_at", Value.date 9)], [("submitted_at", Value.date 2)]])) :=
  listCompleted_sorted_desc
    [[("submitted_at", Value.date 2)], [("submitted_at", Value.date 9)]]
    _
    ⟨[[("submitted_at", Value.date 9)], [("submitted_at", Value.date 2)]],
      ⟨List.Perm.swap [("submitted_at", Value.date 9)]
        [("submitted_at", Value.date 2)] [], by decide⟩, rfl⟩
